import Mathlib

/-!
Verification of the `FasterRCNN` orchestrator (`frcnn/network.py`) against its
specification.  The file shallowly embeds the class: anchor generation
(`_generate_anchors`), the forward pass (`_build`), loss aggregation (`loss`),
construction (`__init__`) and `load_from_checkpoints`.  Sub-modules that live in
other files of the repository (the VGG backbone, RPN, ROI pooling, RCNN head,
`meshgrid`, `generate_anchors` reference generator, `draw_bboxes`) are modelled
from the spec, either abstractly as function parameters or concretely where the
spec fixes their behaviour.  TensorFlow's global loss collection
(`tf.losses.add_loss` / `tf.losses.get_total_loss`) is modelled as explicit
state.  Real-valued tensors are modelled with rational scalars.
-/

/-- An axis-aligned box `(x1, y1, x2, y2)` with rational coordinates. -/
structure Box where
  x1 : ℚ
  y1 : ℚ
  x2 : ℚ
  y2 : ℚ
deriving DecidableEq, Repr

/-- Add the integer shift `(sx, sy)` to both coordinate pairs of a box.  This is
the elementwise addition performed by the broadcast on lines 149–152 of
`network.py`, where each shift row is `(sx, sy, sx, sy)`. -/
def shiftBox (b : Box) (sx sy : ℤ) : Box :=
  ⟨b.x1 + (sx : ℚ), b.y1 + (sy : ℚ), b.x2 + (sx : ℚ), b.y2 + (sy : ℚ)⟩

/-- Modelled from the spec: `meshgrid` (`frcnn/utils/ops.py`, not under `src/`)
follows TensorFlow meshgrid semantics: for inputs `xs` (length W) and `ys`
(length H) it returns the pair of H-row grids `X`, `Y` with `X[r][c] = xs[c]`
and `Y[r][c] = ys[r]`, matching the spec's tiling description "for every grid
cell `(i,j)`, offset the reference set by `(i*stride, j*stride)`". -/
def meshgrid (xs ys : List ℤ) : List (List ℤ) × List (List ℤ) :=
  (ys.map (fun _ => xs), ys.map (fun y => xs.map (fun _ => y)))

namespace FasterRCNN

/-- Embedding of `FasterRCNN._generate_anchors` (`network.py` lines 126–156),
parametric in the reference anchor set and stride.  Shift coordinates
`x·stride` and `y·stride` are combined with `meshgrid`, flattened, zipped into
shift rows, and broadcast-added to the reference anchors; the `(H·W·k, 4)`
result is flattened cell-major (shift point outermost, anchor index innermost),
exactly as the reshape on line 154 does. -/
def generate_anchors (reference : List Box) (stride : ℤ) (gridH gridW : ℕ) : List Box :=
  let shift_x := (List.range gridW).map (fun x : ℕ => (x : ℤ) * stride)
  let shift_y := (List.range gridH).map (fun y : ℕ => (y : ℤ) * stride)
  let mg := meshgrid shift_x shift_y
  let sx := mg.1.flatten
  let sy := mg.2.flatten
  let shifts := sx.zip sy
  shifts.flatMap (fun p => reference.map (fun a => shiftBox a p.1 p.2))

end FasterRCNN

/-- Zipping a list with a constant-function map of itself pairs each element
with the constant. -/
theorem zip_map_const {α β : Type} (xs : List α) (y : β) :
    xs.zip (xs.map (fun _ => y)) = xs.map (fun x => (x, y)) := by
  induction xs with
  | nil => rfl
  | cons x xs ih => simp only [List.map_cons, List.zip_cons_cons, ih]

/-- The zipped, flattened meshgrid outputs are the row-major list of pairs
`(x, y)` for `y` in `ys` (outer) and `x` in `xs` (inner). -/
theorem meshgrid_zip (xs ys : List ℤ) :
    ((meshgrid xs ys).1.flatten).zip ((meshgrid xs ys).2.flatten) =
      ys.flatMap (fun y => xs.map (fun x => (x, y))) := by
  induction ys with
  | nil => rfl
  | cons y ys ih =>
    simp only [meshgrid, List.map_cons, List.flatten_cons, List.flatMap_cons]
    rw [List.zip_append (by simp), zip_map_const]
    simp only [meshgrid] at ih
    rw [ih]

/-- Length of a `flatMap` whose blocks all have length `k`. -/
theorem flatMap_length_const {α β : Type} (l : List α) (f : α → List β) (k : ℕ)
    (hf : ∀ a ∈ l, (f a).length = k) :
    (l.flatMap f).length = l.length * k := by
  induction l with
  | nil => simp
  | cons a l ih =>
    simp only [List.flatMap_cons, List.length_append, List.length_cons]
    rw [hf a (List.mem_cons_self a l), ih (fun b hb => hf b (List.mem_cons_of_mem a hb))]
    ring

/-- Indexing into a `flatMap` whose blocks all have length `k`: position
`i*k + j` (with `j < k`) lands in block `i` at offset `j`. -/
theorem flatMap_getElem? {α β : Type} (l : List α) (f : α → List β) (k : ℕ)
    (hf : ∀ a ∈ l, (f a).length = k) (i j : ℕ) (hj : j < k) :
    (l.flatMap f)[i * k + j]? = l[i]?.bind (fun a => (f a)[j]?) := by
  induction l generalizing i with
  | nil => simp
  | cons a l ih =>
    have ha : (f a).length = k := hf a (List.mem_cons_self a l)
    cases i with
    | zero =>
      rw [List.flatMap_cons, List.getElem?_append_left (by omega)]
      simp
    | succ i =>
      rw [List.flatMap_cons, List.getElem?_append_right (by rw [ha]; nlinarith)]
      have harith : (i + 1) * k + j - (f a).length = i * k + j := by
        rw [ha]; ring_nf; omega
      rw [harith, ih (fun b hb => hf b (List.mem_cons_of_mem a hb)) i]
      simp

/-- `_generate_anchors` written as a flatMap over grid cells (row-major, cell
`(i, j)` at index `j·W + i`) of shifted copies of the reference set. -/
theorem generate_anchors_eq_flatMap (reference : List Box) (stride : ℤ) (gridH gridW : ℕ) :
    FasterRCNN.generate_anchors reference stride gridH gridW =
      ((List.range gridH).flatMap (fun y : ℕ => (List.range gridW).map
          (fun x : ℕ => ((x : ℤ) * stride, (y : ℤ) * stride)))).flatMap
        (fun p => reference.map (fun a => shiftBox a p.1 p.2)) := by
  unfold FasterRCNN.generate_anchors
  dsimp only
  rw [meshgrid_zip]
  simp only [List.flatMap_map, List.map_map, Function.comp_def]

/-- `_generate_anchors` emits `W·H·k` boxes. -/
theorem generate_anchors_length (reference : List Box) (stride : ℤ) (gridH gridW : ℕ) :
    (FasterRCNN.generate_anchors reference stride gridH gridW).length =
      gridW * gridH * reference.length := by
  rw [generate_anchors_eq_flatMap,
    flatMap_length_const _ _ reference.length (fun p _ => by simp),
    flatMap_length_const _ _ gridW (fun y _ => by simp)]
  simp [Nat.mul_comm, Nat.mul_assoc, Nat.mul_left_comm]

/-- The box of `_generate_anchors` at flat index `(j·W + i)·k + a` is reference
anchor `a` shifted by `(i·stride, j·stride)`. -/
theorem generate_anchors_getElem? (reference : List Box) (stride : ℤ) (gridH gridW : ℕ)
    (i j a : ℕ) (hi : i < gridW) (hj : j < gridH) (ha : a < reference.length) :
    (FasterRCNN.generate_anchors reference stride gridH
        gridW)[(j * gridW + i) * reference.length + a]? =
      some (shiftBox reference[a] ((i : ℤ) * stride) ((j : ℤ) * stride)) := by
  rw [generate_anchors_eq_flatMap,
    flatMap_getElem? _ _ reference.length (fun p _ => by simp) _ a ha,
    flatMap_getElem? _ _ gridW (fun y _ => by simp) j i hi,
    List.getElem?_range hj]
  simp [List.getElem?_map, List.getElem?_range hi, List.getElem?_eq_getElem ha]

/-- Shifting a box by `(0, 0)` leaves it unchanged. -/
theorem shiftBox_zero (b : Box) : shiftBox b 0 0 = b := by
  simp [shiftBox]

/-- A concrete reference set of 9 anchors (3 scales × 3 aspect shapes), used to
instantiate the tiling theorems at the spec's 14×14-grid, stride-16 scenario. -/
def refEx : List Box :=
  [⟨-1, -1, 1, 1⟩, ⟨-2, -1, 2, 1⟩, ⟨-1, -2, 1, 2⟩,
   ⟨-4, -4, 4, 4⟩, ⟨-8, -4, 8, 4⟩, ⟨-4, -8, 4, 8⟩,
   ⟨-16, -16, 16, 16⟩, ⟨-32, -16, 32, 16⟩, ⟨-16, -32, 16, 32⟩]

/-- C1: for a W×H feature-map grid and k reference anchors, `_generate_anchors`
returns exactly W·H·k boxes, and the boxes of grid cell `(i, j)` are the k
reference boxes with `(i·stride, j·stride)` added to both coordinate pairs;
with W = H = 14 and k = 9 this yields 14·14·9 = 1764 boxes. -/
theorem C1_anchor_tiling (reference : List Box) (stride : ℤ) (gridH gridW : ℕ) :
    (FasterRCNN.generate_anchors reference stride gridH gridW).length =
        gridW * gridH * reference.length ∧
      ∀ i j a (hi : i < gridW) (hj : j < gridH) (ha : a < reference.length),
        (FasterRCNN.generate_anchors reference stride gridH
            gridW)[(j * gridW + i) * reference.length + a]? =
          some (shiftBox reference[a] ((i : ℤ) * stride) ((j : ℤ) * stride)) :=
  ⟨generate_anchors_length reference stride gridH gridW,
    fun i j a hi hj ha =>
      generate_anchors_getElem? reference stride gridH gridW i j a hi hj ha⟩

/-- Witness for C1 at the spec's end-to-end scenario: 14×14 grid, stride 16,
9 reference anchors → 1764 boxes; cell (1, 2), anchor 3 checked. -/
theorem C1_anchor_tiling_witness :
    1 < 14 ∧ 2 < 14 ∧ 3 < refEx.length ∧
      ((FasterRCNN.generate_anchors refEx 16 14 14).length = 1764 ∧
        (FasterRCNN.generate_anchors refEx 16 14 14)[(2 * 14 + 1) * refEx.length + 3]? =
          some (shiftBox refEx[3] ((1 : ℤ) * 16) ((2 : ℤ) * 16))) :=
  ⟨by decide, by decide, by decide,
    (C1_anchor_tiling refEx 16 14 14).1,
    (C1_anchor_tiling refEx 16 14 14).2 1 2 3 (by decide) (by decide) (by decide)⟩

/-- C2: the output ordering is cell-major then anchor-index, so for every
`a < k` the `a`-th output box — which belongs to grid cell `(0, 0)` — equals
the unshifted reference anchor `a`. -/
theorem C2_first_cell_unshifted (reference : List Box) (stride : ℤ) (gridH gridW : ℕ)
    (hH : 0 < gridH) (hW : 0 < gridW) (a : ℕ) (ha : a < reference.length) :
    (FasterRCNN.generate_anchors reference stride gridH gridW)[a]? = some reference[a] := by
  have h := generate_anchors_getElem? reference stride gridH gridW 0 0 a hW hH ha
  simpa [shiftBox_zero] using h

/-- Witness for C2: on the 14×14 grid, output box 2 is reference anchor 2. -/
theorem C2_first_cell_unshifted_witness :
    0 < 14 ∧ 2 < refEx.length ∧
      (FasterRCNN.generate_anchors refEx 16 14 14)[2]? = some refEx[2] :=
  ⟨by decide, by decide,
    C2_first_cell_unshifted refEx 16 14 14 (by decide) (by decide) 2 (by decide)⟩

/-- The configuration surface read by `FasterRCNN.__init__` (`ANCHOR_BASE_SIZE`,
`ANCHOR_SCALES`, `ANCHOR_RATIOS`, `ANCHOR_STRIDE`, `PRETRAINED_TRAINABLE`),
together with the four loss weights that the spec lists as part of the
configuration surface ("loss weights (4 floats)"). -/
structure Config where
  ANCHOR_BASE_SIZE : ℚ
  ANCHOR_SCALES : List ℚ
  ANCHOR_RATIOS : List ℚ
  ANCHOR_STRIDE : ℤ
  PRETRAINED_TRAINABLE : Bool
  rpn_cls_weight : ℚ
  rpn_reg_weight : ℚ
  rcnn_cls_weight : ℚ
  rcnn_reg_weight : ℚ
deriving DecidableEq, Repr

/-- The error taxonomy the spec prescribes for construction-time validation. -/
inductive ConfigError where
  | invalidAnchorScale : ConfigError
  | invalidAnchorRatio : ConfigError
  | nonPositiveStride : ConfigError
  | inconsistentClassCount : ConfigError
deriving DecidableEq, Repr

namespace FasterRCNN

/-- The fields `FasterRCNN.__init__` stores on the instance
(`network.py` lines 19–46). -/
structure State where
  cfg : Config
  num_classes : Option ℕ
  anchor_base_size : ℚ
  anchor_scales : List ℚ
  anchor_ratios : List ℚ
  anchor_stride : ℤ
  anchor_reference : List Box
  num_anchors : ℕ
  rpn_cls_loss_weight : ℚ
  rpn_reg_loss_weight : ℚ
  rcnn_cls_loss_weight : ℚ
  rcnn_reg_loss_weight : ℚ
deriving Repr

/-- The record built by `FasterRCNN.__init__` (`network.py` lines 19–46),
parametric in `anchor_reference_fn`, the reference generator
`generate_anchors_reference` (`frcnn/utils/generate_anchors.py`, not under
`src/`; per the spec a pure function of `(base_size, ratios, scales)` producing
one box per ratio–scale pair).  The four loss weights are assigned the literal
constants `1.0`, `2.0`, `1.0`, `2.0` from lines 36–40. -/
def mkState (anchor_reference_fn : ℚ → List ℚ → List ℚ → List Box)
    (config : Config) (num_classes : Option ℕ) : State :=
  let anchor_reference :=
    anchor_reference_fn config.ANCHOR_BASE_SIZE config.ANCHOR_RATIOS config.ANCHOR_SCALES
  { cfg := config
    num_classes := num_classes
    anchor_base_size := config.ANCHOR_BASE_SIZE
    anchor_scales := config.ANCHOR_SCALES
    anchor_ratios := config.ANCHOR_RATIOS
    anchor_stride := config.ANCHOR_STRIDE
    anchor_reference := anchor_reference
    num_anchors := anchor_reference.length
    rpn_cls_loss_weight := 1
    rpn_reg_loss_weight := 2
    rcnn_cls_loss_weight := 1
    rcnn_reg_loss_weight := 2 }

/-- Embedding of `FasterRCNN.__init__` as a fallible constructor: a Python
constructor may raise, so its result type is `Except ConfigError State`; the
body of `__init__` contains no validation and no raise statement, so the
embedding always returns `.ok` of the stored fields. -/
def init (anchor_reference_fn : ℚ → List ℚ → List ℚ → List Box)
    (config : Config) (num_classes : Option ℕ) : Except ConfigError State :=
  .ok (mkState anchor_reference_fn config num_classes)

/-- Embedding of `FasterRCNN.load_from_checkpoints` (`network.py` lines 96–97):
the body is `pass`, so it returns `None` (modelled as `Unit`) and the instance
state unchanged. -/
def load_from_checkpoints (m : State) (checkpoints : List String) : Unit × State :=
  ((), m)

end FasterRCNN

/-- A concrete stand-in reference generator used to instantiate construction
theorems: one box per (ratio, scale) pair. -/
def refFnEx (base : ℚ) (ratios scales : List ℚ) : List Box :=
  ratios.flatMap (fun r => scales.map
    (fun s => ⟨-(base * s), -(base * s * r), base * s, base * s * r⟩))

/-- A configuration whose four loss-weight entries differ from the constants
hard-coded in `__init__`. -/
def cfgEx : Config :=
  { ANCHOR_BASE_SIZE := 16
    ANCHOR_SCALES := [1/2, 1, 2]
    ANCHOR_RATIOS := [1/2, 1, 2]
    ANCHOR_STRIDE := 16
    PRETRAINED_TRAINABLE := false
    rpn_cls_weight := 3
    rpn_reg_weight := 5
    rcnn_cls_weight := 7
    rcnn_reg_weight := 11 }

/-- An invalid configuration: non-positive stride, a negative anchor scale and
a zero aspect ratio. -/
def badCfg : Config :=
  { ANCHOR_BASE_SIZE := 16
    ANCHOR_SCALES := [-2]
    ANCHOR_RATIOS := [0]
    ANCHOR_STRIDE := -1
    PRETRAINED_TRAINABLE := false
    rpn_cls_weight := 1
    rpn_reg_weight := 2
    rcnn_cls_weight := 1
    rcnn_reg_weight := 2 }

/-- C4 counterexample: with a configuration whose `rpn_cls_weight` is 3, the
constructed orchestrator's RPN classification weight is the hard-coded 1.0, not
the configured value — the weights are not taken from the configuration. -/
theorem C4_weights_counterexample :
    (FasterRCNN.mkState refFnEx cfgEx none).rpn_cls_loss_weight ≠ cfgEx.rpn_cls_weight := by
  simp only [FasterRCNN.mkState, cfgEx]
  norm_num

/-- C4 (amended): the four loss weights applied by `loss` are the literal
constants `1.0`, `2.0`, `1.0`, `2.0` assigned on lines 36–40 of `network.py`,
for every configuration, reference generator and class count. -/
theorem C4_weights_hardcoded (fn : ℚ → List ℚ → List ℚ → List Box)
    (config : Config) (nc : Option ℕ) :
    (FasterRCNN.mkState fn config nc).rpn_cls_loss_weight = 1 ∧
      (FasterRCNN.mkState fn config nc).rpn_reg_loss_weight = 2 ∧
      (FasterRCNN.mkState fn config nc).rcnn_cls_loss_weight = 1 ∧
      (FasterRCNN.mkState fn config nc).rcnn_reg_loss_weight = 2 :=
  ⟨rfl, rfl, rfl, rfl⟩

/-- C7 counterexample: a configuration with non-positive stride (and invalid
scale/ratio entries) is accepted: construction returns `.ok`, raising no
`ConfigError`. -/
theorem C7_counterexample :
    badCfg.ANCHOR_STRIDE ≤ 0 ∧
      FasterRCNN.init refFnEx badCfg none = .ok (FasterRCNN.mkState refFnEx badCfg none) :=
  ⟨by decide, rfl⟩

/-- C7 (amended): `__init__` performs no validation at all: for every
configuration (valid or invalid) and class count, construction succeeds and
stores the configured values as-is; no `ConfigError` is ever raised. -/
theorem C7_init_never_raises (fn : ℚ → List ℚ → List ℚ → List Box)
    (config : Config) (nc : Option ℕ) :
    FasterRCNN.init fn config nc = .ok (FasterRCNN.mkState fn config nc) ∧
      (FasterRCNN.mkState fn config nc).anchor_stride = config.ANCHOR_STRIDE ∧
      (FasterRCNN.mkState fn config nc).num_classes = nc :=
  ⟨rfl, rfl, rfl⟩

/-- C10: `load_from_checkpoints` is a no-op: for every state and checkpoints
argument it returns `None` and leaves every stored field of the orchestrator
unchanged. -/
theorem C10_load_from_checkpoints_noop (m : FasterRCNN.State) (checkpoints : List String) :
    FasterRCNN.load_from_checkpoints m checkpoints = ((), m) ∧
      (FasterRCNN.load_from_checkpoints m checkpoints).2.cfg = m.cfg ∧
      (FasterRCNN.load_from_checkpoints m checkpoints).2.num_classes = m.num_classes ∧
      (FasterRCNN.load_from_checkpoints m checkpoints).2.anchor_base_size = m.anchor_base_size ∧
      (FasterRCNN.load_from_checkpoints m checkpoints).2.anchor_scales = m.anchor_scales ∧
      (FasterRCNN.load_from_checkpoints m checkpoints).2.anchor_ratios = m.anchor_ratios ∧
      (FasterRCNN.load_from_checkpoints m checkpoints).2.anchor_stride = m.anchor_stride ∧
      (FasterRCNN.load_from_checkpoints m checkpoints).2.anchor_reference = m.anchor_reference ∧
      (FasterRCNN.load_from_checkpoints m checkpoints).2.num_anchors = m.num_anchors ∧
      (FasterRCNN.load_from_checkpoints m checkpoints).2.rpn_cls_loss_weight = m.rpn_cls_loss_weight ∧
      (FasterRCNN.load_from_checkpoints m checkpoints).2.rpn_reg_loss_weight = m.rpn_reg_loss_weight ∧
      (FasterRCNN.load_from_checkpoints m checkpoints).2.rcnn_cls_loss_weight = m.rcnn_cls_loss_weight ∧
      (FasterRCNN.load_from_checkpoints m checkpoints).2.rcnn_reg_loss_weight = m.rcnn_reg_loss_weight :=
  ⟨rfl, rfl, rfl, rfl, rfl, rfl, rfl, rfl, rfl, rfl, rfl, rfl, rfl⟩

/-- An input image, shape `(1, height, width, 3)`; pixel contents abstracted as
a flat rational list. -/
structure Image where
  height : ℕ
  width : ℕ
  data : List ℚ
deriving DecidableEq, Repr

/-- A backbone feature map, shape `(1, height, width, channels)`. -/
structure FeatureMap where
  height : ℕ
  width : ℕ
  channels : ℕ
  data : List ℚ
deriving DecidableEq, Repr

/-- The RPN output dict: the proposal boxes consumed downstream, plus the
remaining tensors (scores, deltas, targets) abstracted as a payload. -/
structure RPNPrediction where
  proposals : List Box
  payload : List ℚ
deriving DecidableEq, Repr

/-- The RCNN head's output dict, abstracted as a payload. -/
structure ClassificationPrediction where
  payload : List ℚ
deriving DecidableEq, Repr

/-- The ROI pooling output, abstracted as a payload. -/
structure RoiPool where
  payload : List ℚ
deriving DecidableEq, Repr

/-- Modelled from the spec: the collaborating sub-modules built in `__init__`
(`VGG`, `RPN`, `ROIPoolingLayer`, `RCNN`) and `draw_bboxes` live in repository
files not under `src/`; the spec treats them as black boxes with the interfaces
below, so they are modelled as arbitrary functions. -/
structure SubComponents where
  pretrained : Image → FeatureMap
  rpn : FeatureMap → List Box → ℕ × ℕ → List Box → Bool → RPNPrediction
  roi_pool : List Box → FeatureMap → RoiPool
  rcnn : RoiPool → List Box → List Box → ClassificationPrediction
  draw_bboxes : Image → List Box → Image

/-- The dict returned by `FasterRCNN._build` (`network.py` lines 86–94). -/
structure PredictionBundle where
  image_shape : ℕ × ℕ
  all_anchors : List Box
  rpn_prediction : RPNPrediction
  classification_prediction : ClassificationPrediction
  roi_pool : RoiPool
  gt_boxes : List Box
  rpn_drawn_image : Image

namespace FasterRCNN

/-- `_generate_anchors` applied to a feature map: the code reads only
`tf.shape(feature_map)[1:3]`, the spatial dimensions, with
`grid_height = shape[0]` and `grid_width = shape[1]`. -/
def generateAnchorsOnMap (m : State) (feature_map : FeatureMap) : List Box :=
  generate_anchors m.anchor_reference m.anchor_stride feature_map.height feature_map.width

/-- Embedding of `FasterRCNN._build` (`network.py` lines 48–94): backbone,
anchors, RPN, ROI pooling and RCNN head in sequence, returning the dict of
lines 86–94.  The summary-image calls on lines 83–84 have no effect on the
returned dict and are omitted. -/
def build (m : State) (sub : SubComponents) (image : Image) (gt_boxes : List Box)
    (is_training : Bool) : PredictionBundle :=
  let image_shape := (image.height, image.width)
  let pretrained_output := sub.pretrained image
  let all_anchors := generateAnchorsOnMap m pretrained_output
  let rpn_prediction := sub.rpn pretrained_output gt_boxes image_shape all_anchors is_training
  let roi_pool := sub.roi_pool rpn_prediction.proposals pretrained_output
  let classification_prediction := sub.rcnn roi_pool rpn_prediction.proposals gt_boxes
  let drawn_image := sub.draw_bboxes image rpn_prediction.proposals
  { image_shape := image_shape
    all_anchors := all_anchors
    rpn_prediction := rpn_prediction
    classification_prediction := classification_prediction
    roi_pool := roi_pool
    gt_boxes := gt_boxes
    rpn_drawn_image := drawn_image }

end FasterRCNN

/-- TensorFlow's process-global loss collection (graph collection
`tf.GraphKeys.LOSSES` plus the regularization-loss collection), modelled as
explicit state: `tf.losses.add_loss` appends to `losses`, and
`tf.losses.get_total_loss` sums both lists. -/
structure LossesCollection where
  losses : List ℚ
  regularization_losses : List ℚ
deriving DecidableEq, Repr

/-- `tf.losses.add_loss`: register one more loss tensor in the collection. -/
def add_loss (c : LossesCollection) (l : ℚ) : LossesCollection :=
  { c with losses := c.losses ++ [l] }

/-- `tf.losses.get_total_loss`: the sum over the entire collection, including
regularization losses. -/
def get_total_loss (c : LossesCollection) : ℚ :=
  c.losses.sum + c.regularization_losses.sum

/-- Modelled from the spec: the component losses returned by `RPN.loss`
(`frcnn/rpn.py`, not under `src/`): classification and regression terms. -/
structure RPNLossDict where
  rpn_cls_loss : ℚ
  rpn_reg_loss : ℚ
deriving DecidableEq, Repr

/-- Modelled from the spec: the component losses returned by `RCNN.loss`
(`frcnn/rcnn.py`, not under `src/`): classification and regression terms. -/
structure RCNNLossDict where
  rcnn_cls_loss : ℚ
  rcnn_reg_loss : ℚ
deriving DecidableEq, Repr

namespace FasterRCNN

/-- Embedding of `FasterRCNN.loss` (`network.py` lines 99–124), parametric in
the sub-module loss functions (their files are not under `src/`).  Each of the
four component losses is multiplied by the corresponding stored weight, the
four weighted losses are added to the global collection with
`tf.losses.add_loss`, and the returned scalar is `tf.losses.get_total_loss()`:
the total over the entire collection. -/
def loss (m : State) (rpn_loss_fn : RPNPrediction → RPNLossDict)
    (rcnn_loss_fn : ClassificationPrediction → RCNNLossDict)
    (prediction_dict : PredictionBundle) (c : LossesCollection) : ℚ × LossesCollection :=
  let rpn_loss_dict := rpn_loss_fn prediction_dict.rpn_prediction
  let rcnn_loss_dict := rcnn_loss_fn prediction_dict.classification_prediction
  let rpn_cls := rpn_loss_dict.rpn_cls_loss * m.rpn_cls_loss_weight
  let rpn_reg := rpn_loss_dict.rpn_reg_loss * m.rpn_reg_loss_weight
  let rcnn_cls := rcnn_loss_dict.rcnn_cls_loss * m.rcnn_cls_loss_weight
  let rcnn_reg := rcnn_loss_dict.rcnn_reg_loss * m.rcnn_reg_loss_weight
  let c1 := add_loss (add_loss (add_loss (add_loss c rpn_cls) rpn_reg) rcnn_cls) rcnn_reg
  (get_total_loss c1, c1)

/-- The four weighted component losses of a bundle, in the order `loss` adds
them to the collection. -/
def weightedLosses (m : State) (rpn_loss_fn : RPNPrediction → RPNLossDict)
    (rcnn_loss_fn : ClassificationPrediction → RCNNLossDict)
    (prediction_dict : PredictionBundle) : List ℚ :=
  [(rpn_loss_fn prediction_dict.rpn_prediction).rpn_cls_loss * m.rpn_cls_loss_weight,
   (rpn_loss_fn prediction_dict.rpn_prediction).rpn_reg_loss * m.rpn_reg_loss_weight,
   (rcnn_loss_fn prediction_dict.classification_prediction).rcnn_cls_loss *
     m.rcnn_cls_loss_weight,
   (rcnn_loss_fn prediction_dict.classification_prediction).rcnn_reg_loss *
     m.rcnn_reg_loss_weight]

end FasterRCNN

/-- Unfolding of one `loss` call: the collection grows by the four weighted
losses and the returned total is the previous total plus their sum. -/
theorem loss_unfold (m : FasterRCNN.State) (rpn_loss_fn : RPNPrediction → RPNLossDict)
    (rcnn_loss_fn : ClassificationPrediction → RCNNLossDict)
    (pd : PredictionBundle) (c : LossesCollection) :
    (FasterRCNN.loss m rpn_loss_fn rcnn_loss_fn pd c).2.losses =
        c.losses ++ FasterRCNN.weightedLosses m rpn_loss_fn rcnn_loss_fn pd ∧
      (FasterRCNN.loss m rpn_loss_fn rcnn_loss_fn pd c).2.regularization_losses =
        c.regularization_losses ∧
      (FasterRCNN.loss m rpn_loss_fn rcnn_loss_fn pd c).1 =
        get_total_loss c + (FasterRCNN.weightedLosses m rpn_loss_fn rcnn_loss_fn pd).sum := by
  refine ⟨by simp [FasterRCNN.loss, add_loss, FasterRCNN.weightedLosses], rfl, ?_⟩
  simp [FasterRCNN.loss, add_loss, get_total_loss, FasterRCNN.weightedLosses]
  ring

/-- A concrete orchestrator state built from `cfgEx`. -/
def mEx : FasterRCNN.State := FasterRCNN.mkState refFnEx cfgEx none

/-- A concrete stand-in for `RPN.loss`, returning classification loss 1 and
regression loss 0. -/
def rpnLossFnEx : RPNPrediction → RPNLossDict := fun _ => ⟨1, 0⟩

/-- A concrete stand-in for `RCNN.loss`, returning zero losses. -/
def rcnnLossFnEx : ClassificationPrediction → RCNNLossDict := fun _ => ⟨0, 0⟩

/-- A concrete prediction bundle. -/
def pdEx : PredictionBundle :=
  { image_shape := (224, 224)
    all_anchors := []
    rpn_prediction := ⟨[⟨0, 0, 10, 10⟩], []⟩
    classification_prediction := ⟨[]⟩
    roi_pool := ⟨[]⟩
    gt_boxes := []
    rpn_drawn_image := ⟨224, 224, []⟩ }

/-- A loss collection already holding one previously registered loss of 10. -/
def cEx : LossesCollection := ⟨[10], []⟩

/-- C3 counterexample: with a loss of 10 already registered in the global
collection, `loss` on `pdEx` returns 11 while the weighted sum of the four
component losses is 1 — the previously registered loss also contributes to the
returned total. -/
theorem C3_counterexample :
    (FasterRCNN.loss mEx rpnLossFnEx rcnnLossFnEx pdEx cEx).1 ≠
      (FasterRCNN.weightedLosses mEx rpnLossFnEx rcnnLossFnEx pdEx).sum := by
  norm_num [FasterRCNN.loss, FasterRCNN.weightedLosses, add_loss, get_total_loss, mEx,
    FasterRCNN.mkState, rpnLossFnEx, rcnnLossFnEx, cEx]

/-- C3 (amended): when the global loss collection is empty before the call (no
previously registered losses and no regularization losses), `loss` returns
exactly the sum of the four component losses, each multiplied by its
corresponding weight. -/
theorem C3_loss_weighted_sum (m : FasterRCNN.State)
    (rpn_loss_fn : RPNPrediction → RPNLossDict)
    (rcnn_loss_fn : ClassificationPrediction → RCNNLossDict) (pd : PredictionBundle) :
    (FasterRCNN.loss m rpn_loss_fn rcnn_loss_fn pd ⟨[], []⟩).1 =
      (rpn_loss_fn pd.rpn_prediction).rpn_cls_loss * m.rpn_cls_loss_weight +
        (rpn_loss_fn pd.rpn_prediction).rpn_reg_loss * m.rpn_reg_loss_weight +
        (rcnn_loss_fn pd.classification_prediction).rcnn_cls_loss * m.rcnn_cls_loss_weight +
        (rcnn_loss_fn pd.classification_prediction).rcnn_reg_loss * m.rcnn_reg_loss_weight := by
  simp [FasterRCNN.loss, add_loss, get_total_loss]
  ring

/-- The scalar `loss` returns is by definition the total over the collection it
leaves behind. -/
theorem loss_fst_eq_total (m : FasterRCNN.State) (rpn_loss_fn : RPNPrediction → RPNLossDict)
    (rcnn_loss_fn : ClassificationPrediction → RCNNLossDict)
    (pd : PredictionBundle) (c : LossesCollection) :
    (FasterRCNN.loss m rpn_loss_fn rcnn_loss_fn pd c).1 =
      get_total_loss (FasterRCNN.loss m rpn_loss_fn rcnn_loss_fn pd c).2 := rfl

/-- C9: `loss` is not a pure function of its bundle argument: each call appends
the four weighted component losses to the process-global collection and returns
the total over the entire collection, so previously registered losses are
included in the returned total, and a second call on the same bundle returns
the first total plus the bundle's weighted sum — a different total whenever
that sum is nonzero. -/
theorem C9_loss_global_state (m : FasterRCNN.State)
    (rpn_loss_fn : RPNPrediction → RPNLossDict)
    (rcnn_loss_fn : ClassificationPrediction → RCNNLossDict)
    (pd : PredictionBundle) (c : LossesCollection) :
    (FasterRCNN.loss m rpn_loss_fn rcnn_loss_fn pd c).2.losses =
        c.losses ++ FasterRCNN.weightedLosses m rpn_loss_fn rcnn_loss_fn pd ∧
      (FasterRCNN.loss m rpn_loss_fn rcnn_loss_fn pd c).1 =
        get_total_loss c + (FasterRCNN.weightedLosses m rpn_loss_fn rcnn_loss_fn pd).sum ∧
      (FasterRCNN.loss m rpn_loss_fn rcnn_loss_fn pd
          (FasterRCNN.loss m rpn_loss_fn rcnn_loss_fn pd c).2).1 =
        (FasterRCNN.loss m rpn_loss_fn rcnn_loss_fn pd c).1 +
          (FasterRCNN.weightedLosses m rpn_loss_fn rcnn_loss_fn pd).sum ∧
      ((FasterRCNN.weightedLosses m rpn_loss_fn rcnn_loss_fn pd).sum ≠ 0 →
        (FasterRCNN.loss m rpn_loss_fn rcnn_loss_fn pd
            (FasterRCNN.loss m rpn_loss_fn rcnn_loss_fn pd c).2).1 ≠
          (FasterRCNN.loss m rpn_loss_fn rcnn_loss_fn pd c).1) := by
  obtain ⟨h1, _, h3⟩ := loss_unfold m rpn_loss_fn rcnn_loss_fn pd c
  obtain ⟨_, _, h3'⟩ :=
    loss_unfold m rpn_loss_fn rcnn_loss_fn pd (FasterRCNN.loss m rpn_loss_fn rcnn_loss_fn pd c).2
  have key : (FasterRCNN.loss m rpn_loss_fn rcnn_loss_fn pd
      (FasterRCNN.loss m rpn_loss_fn rcnn_loss_fn pd c).2).1 =
      (FasterRCNN.loss m rpn_loss_fn rcnn_loss_fn pd c).1 +
        (FasterRCNN.weightedLosses m rpn_loss_fn rcnn_loss_fn pd).sum := by
    rw [h3', loss_fst_eq_total]
  refine ⟨h1, h3, key, fun hne => ?_⟩
  rw [key]
  simpa [add_right_eq_self] using hne

/-- Witness for C9: on `pdEx` the weighted sum is 1 ≠ 0, and the second of two
successive `loss` calls returns a different total than the first. -/
theorem C9_loss_global_state_witness :
    (FasterRCNN.weightedLosses mEx rpnLossFnEx rcnnLossFnEx pdEx).sum ≠ 0 ∧
      (FasterRCNN.loss mEx rpnLossFnEx rcnnLossFnEx pdEx
          (FasterRCNN.loss mEx rpnLossFnEx rcnnLossFnEx pdEx cEx).2).1 ≠
        (FasterRCNN.loss mEx rpnLossFnEx rcnnLossFnEx pdEx cEx).1 := by
  have hsum : (FasterRCNN.weightedLosses mEx rpnLossFnEx rcnnLossFnEx pdEx).sum ≠ 0 := by
    simp [FasterRCNN.weightedLosses, mEx, FasterRCNN.mkState, rpnLossFnEx, rcnnLossFnEx]
  exact ⟨hsum, (C9_loss_global_state mEx rpnLossFnEx rcnnLossFnEx pdEx cEx).2.2.2 hsum⟩

/-- A concrete 224×224 input image. -/
def imgEx : Image := ⟨224, 224, []⟩

/-- Concrete sub-modules: the backbone spatially subsamples the image by 16;
the other components record their arguments in their payloads. -/
def subEx : SubComponents :=
  { pretrained := fun image => ⟨image.height / 16, image.width / 16, 512, image.data⟩
    rpn := fun fm gt _ anchors _ =>
      ⟨[⟨0, 0, 10, 10⟩], [fm.data.sum, (anchors.length : ℚ), (gt.length : ℚ)]⟩
    roi_pool := fun proposals fm => ⟨[(proposals.length : ℚ), fm.data.sum]⟩
    rcnn := fun pool proposals gt =>
      ⟨pool.payload ++ [(proposals.length : ℚ), (gt.length : ℚ)]⟩
    draw_bboxes := fun image proposals =>
      ⟨image.height, image.width, image.data ++ [(proposals.length : ℚ)]⟩ }

/-- C5 counterexample: on a 224×224 image whose backbone feature map is 14×14,
the shape stored in the returned bundle is the image's spatial shape
`(224, 224)`, not the feature map's `(14, 14)`: the bundle carries
`tf.shape(image)[1:3]`, not the feature-map shape. -/
theorem C5_counterexample :
    (FasterRCNN.build mEx subEx imgEx [] true).image_shape ≠
      ((subEx.pretrained imgEx).height, (subEx.pretrained imgEx).width) := by
  decide

/-- C5 (amended): `_build` returns a bundle containing the image's spatial
shape (not the feature map's), the anchor set generated from the backbone
feature map, the RPN outputs, the classification outputs, the pooled features,
and the ground-truth boxes echoed unchanged — the returned ground-truth entry
is identical to the `gt_boxes` argument. -/
theorem C5_build_bundle (m : FasterRCNN.State) (sub : SubComponents) (image : Image)
    (gt_boxes : List Box) (is_training : Bool) :
    (FasterRCNN.build m sub image gt_boxes is_training).gt_boxes = gt_boxes ∧
      (FasterRCNN.build m sub image gt_boxes is_training).image_shape =
        (image.height, image.width) ∧
      (FasterRCNN.build m sub image gt_boxes is_training).all_anchors =
        FasterRCNN.generateAnchorsOnMap m (sub.pretrained image) ∧
      (FasterRCNN.build m sub image gt_boxes is_training).rpn_prediction =
        sub.rpn (sub.pretrained image) gt_boxes (image.height, image.width)
          (FasterRCNN.generateAnchorsOnMap m (sub.pretrained image)) is_training ∧
      (FasterRCNN.build m sub image gt_boxes is_training).roi_pool =
        sub.roi_pool
          (FasterRCNN.build m sub image gt_boxes is_training).rpn_prediction.proposals
          (sub.pretrained image) ∧
      (FasterRCNN.build m sub image gt_boxes is_training).classification_prediction =
        sub.rcnn (FasterRCNN.build m sub image gt_boxes is_training).roi_pool
          (FasterRCNN.build m sub image gt_boxes is_training).rpn_prediction.proposals
          gt_boxes :=
  ⟨rfl, rfl, rfl, rfl, rfl, rfl⟩

/-- C6: the anchor set is a stateless, deterministic function of the feature
map's spatial dimensions alone: two feature maps of equal height and width —
whatever their channel counts or contents — yield identical anchor sets under
the same constructed state, and every forward pass recomputes the anchors as
exactly this function of the backbone output. -/
theorem C6_anchors_shape_only (m : FasterRCNN.State) (fm1 fm2 : FeatureMap)
    (hh : fm1.height = fm2.height) (hw : fm1.width = fm2.width) :
    FasterRCNN.generateAnchorsOnMap m fm1 = FasterRCNN.generateAnchorsOnMap m fm2 ∧
      ∀ (sub : SubComponents) (image : Image) (gt_boxes : List Box) (is_training : Bool),
        (FasterRCNN.build m sub image gt_boxes is_training).all_anchors =
          FasterRCNN.generateAnchorsOnMap m (sub.pretrained image) := by
  refine ⟨?_, fun sub image gt_boxes is_training => rfl⟩
  unfold FasterRCNN.generateAnchorsOnMap
  rw [hh, hw]

/-- A 14×14 feature map with 512 channels. -/
def fmEx1 : FeatureMap := ⟨14, 14, 512, [1, 2, 3]⟩

/-- A 14×14 feature map with different channel count and contents. -/
def fmEx2 : FeatureMap := ⟨14, 14, 8, [9]⟩

/-- Witness for C6: two feature maps agreeing only in spatial dimensions
produce the same anchor set. -/
theorem C6_anchors_shape_only_witness :
    fmEx1.height = fmEx2.height ∧ fmEx1.width = fmEx2.width ∧
      FasterRCNN.generateAnchorsOnMap mEx fmEx1 = FasterRCNN.generateAnchorsOnMap mEx fmEx2 :=
  ⟨rfl, rfl, (C6_anchors_shape_only mEx fmEx1 fmEx2 rfl rfl).1⟩

/-- C8: no final-output refinement is applied between the RCNN head and the
returned bundle: the classification entry is exactly the RCNN head's output on
the pooled features, the RPN proposals and the ground truth — no coordinate
mapping, trimming or final NMS intervenes. -/
theorem C8_no_final_refinement (m : FasterRCNN.State) (sub : SubComponents) (image : Image)
    (gt_boxes : List Box) (is_training : Bool) :
    (FasterRCNN.build m sub image gt_boxes is_training).classification_prediction =
      sub.rcnn
        (sub.roi_pool
          (sub.rpn (sub.pretrained image) gt_boxes (image.height, image.width)
            (FasterRCNN.generateAnchorsOnMap m (sub.pretrained image)) is_training).proposals
          (sub.pretrained image))
        (sub.rpn (sub.pretrained image) gt_boxes (image.height, image.width)
          (FasterRCNN.generateAnchorsOnMap m (sub.pretrained image)) is_training).proposals
        gt_boxes := rfl
